import Mathlib

/-!
Verification of the agrilink cart-to-order pipeline.

Shallow embedding of the Python/Django source:
  * `cart/cart.py`        (class `Cart`)
  * `cart/serializers.py` (`CartAddProductSerializer`)
  * `cart/views.py`       (`CartAddProductView.post`)
  * `orders/models.py`    (`Order`, `OrderItem`)
  * `orders/views.py`     (`OrderCreateAPIView.post`)
  * `payment/views.py`    (`create_checkout_session`, `stripe_webhook`,
                           `handle_successful_payment`)

Conventions of the embedding:
  * Python `Decimal` is embedded as `Rat` (addition and multiplication of
    decimals are exact, so `Rat` is a faithful carrier; division is never
    used by this code).
  * Product ids (stringified in the session dict) are embedded as `Nat`.
  * A Python dict keyed by product id is an insertion-ordered association
    list `List (Nat × _)`; dict insertion of a fresh key appends.
  * Session-stored cart payloads are attacker-controllable, so a raw entry
    carries `Option` fields: `none` models a value whose `int(...)`
    or `Decimal(...)` conversion raises (`ValueError`, `TypeError`,
    `InvalidOperation`); a missing `quantity` key defaults to `0`
    (`item.get('quantity', 0)`) before conversion, hence is `some 0`.
  * Fallible operations return `Except String _`; the error string names
    the Python exception.
-/

namespace Agrilink

/-- One row of `products.models.Product`, restricted to the fields the cart
and order code reads: `id`, `price` (DecimalField), `stock_quantity`
(PositiveIntegerField), `is_available` (BooleanField). -/
structure Product where
  id : Nat
  price : Rat
  stock_quantity : Nat
  is_available : Bool
  deriving Repr, DecidableEq

/-- The catalog: `Product.objects`.  `Product.objects.filter(id__in=...)`
lookups become `getProduct`. -/
def getProduct (catalog : List Product) (pid : Nat) : Option Product :=
  catalog.find? (fun p => p.id = pid)

/-- A raw session cart entry before `Cart._validate_cart` has run:
`{'quantity': ..., 'price': ...}` with attacker-controllable values.
`rawQuantity = none` models `int(item.get('quantity', 0))` raising;
`rawPrice = none` models `Decimal(item.get('price'))` raising
(also the missing-key case, where `Decimal(None)` raises `TypeError`). -/
structure RawItem where
  rawQuantity : Option Int
  rawPrice : Option Rat
  deriving Repr, DecidableEq

/-- The raw session-stored cart: `request.session[settings.CART_SESSION_ID]`. -/
abbrev RawCart := List (Nat × RawItem)

/-- A validated cart line as stored in `self.cart`:
`{'quantity': int, 'price': str(Decimal)}`.  The price string written by
`save()` is `str` of a `Decimal` and therefore always re-parses, so it is
carried directly as `Rat`. -/
structure CartItem where
  quantity : Int
  price : Rat
  deriving Repr, DecidableEq

/-- The in-memory cart `self.cart` after validation. -/
abbrev CartState := List (Nat × CartItem)

namespace Cart

/-- `Cart._validate_cart` (cart/cart.py): for each entry convert quantity to
`int` and price to `Decimal`; on conversion failure or a negative value the
entry is dropped (logged), otherwise it is kept.  Note that a zero quantity
or zero price passes the `quantity < 0 or price < 0` check and is kept. -/
def validate (cart : RawCart) : CartState :=
  cart.filterMap fun e =>
    match e.2.rawQuantity, e.2.rawPrice with
    | some q, some p => if q < 0 ∨ p < 0 then none else some (e.1, ⟨q, p⟩)
    | _, _ => none

/-- Key membership test `product_id in self.cart`. -/
def hasKey (pid : Nat) (cart : CartState) : Bool :=
  cart.any fun e => e.1 = pid

/-- Dict read `self.cart[product_id]` / `self.cart.get(product_id)`. -/
def lookupItem (pid : Nat) (cart : CartState) : Option CartItem :=
  (cart.find? fun e => e.1 = pid).map fun e => e.2

/-- `Cart.add(product, quantity, update_quantity)` (cart/cart.py).
`Decimal(product.price)` cannot fail for a catalog `DecimalField`, but the
`price <= 0` guard re-raises `ValueError` before any cart mutation.
Otherwise: a missing line is first created as `{'quantity': 0, 'price':
str(price)}` (dict insertion appends); then the line quantity is set to
`max(0, quantity)` when `update_quantity` else `max(0, old + quantity)`.
The stored price of an already-present line is never touched.
(`save()` only re-stringifies prices and marks the session dirty.) -/
def add (product : Product) (quantity : Int) (update_quantity : Bool)
    (cart : CartState) : Except String CartState :=
  if product.price ≤ 0 then
    .error "ValueError: Product price must be greater than zero."
  else
    let cart1 :=
      if hasKey product.id cart then cart
      else cart ++ [(product.id, ⟨0, product.price⟩)]
    .ok <| cart1.map fun e =>
      if e.1 = product.id then
        (e.1, ⟨if update_quantity then max 0 quantity
               else max 0 (e.2.quantity + quantity), e.2.price⟩)
      else e

/-- The cart state after an `add` call: on the exception path the raise
happens before any mutation, so the state is unchanged. -/
def addState (product : Product) (quantity : Int) (update_quantity : Bool)
    (cart : CartState) : CartState :=
  match add product quantity update_quantity cart with
  | .ok c => c
  | .error _ => cart

/-- `Cart.remove(product)` (cart/cart.py): delete the line if present. -/
def remove (pid : Nat) (cart : CartState) : CartState :=
  cart.filter fun e => ¬ e.1 = pid

/-- `Cart.__len__` (cart/cart.py): the sum of the stored quantities. -/
def len (cart : CartState) : Int :=
  (cart.map fun e => e.2.quantity).sum

/-- `Cart.get_total_price` (cart/cart.py): `Σ Decimal(price) * quantity`
over the stored entries — snapshot prices, no catalog access. -/
def get_total_price (cart : CartState) : Rat :=
  (cart.map fun e => e.2.price * (e.2.quantity : Rat)).sum

/-- One item yielded by `Cart.__iter__`. -/
structure IterItem where
  productId : Nat
  product : Option Product
  quantity : Int
  price : Rat
  total_price : Rat
  deriving Repr, DecidableEq

/-- The body of the `Cart.__iter__` loop (cart/cart.py), for one stored
line: `item['product'] = products.get(product_id)` — a product id absent
from the catalog yields `None` here and raises nothing.  Then, in a try
block falling into the corrupt-entry handler: the stored price re-parses
(it is `str` of a `Decimal`), `price <= 0` raises, `quantity <= 0` raises,
else `total_price = price * quantity`; the handler sets
`total_price = Decimal('0.00')`.  The line is yielded either way. -/
def iterItem (catalog : List Product) (e : Nat × CartItem) : IterItem :=
  { productId := e.1
    product := getProduct catalog e.1
    quantity := e.2.quantity
    price := e.2.price
    total_price :=
      if (0 : Rat) < e.2.price ∧ (0 : Int) < e.2.quantity
      then e.2.price * (e.2.quantity : Rat) else 0 }

/-- `Cart.__iter__` (cart/cart.py): run the loop body over every stored
line (the loop iterates a deep copy of `self.cart`, so the stored cart is
not mutated); no line aborts the iteration. -/
def iter (catalog : List Product) (cart : CartState) : List IterItem :=
  cart.map (iterItem catalog)

/-- Every stored line has a nonnegative quantity and a nonnegative price —
the invariant `_validate_cart` actually establishes (it rejects negatives
but keeps zeroes). -/
def Nonneg (cart : CartState) : Prop :=
  ∀ e ∈ cart, 0 ≤ e.2.quantity ∧ 0 ≤ e.2.price

instance (cart : CartState) : Decidable (Nonneg cart) := by
  unfold Nonneg; infer_instance

end Cart

/-! ## Cart add view (`cart/views.py`, `CartAddProductView.post`) -/

/-- Outcome of `CartAddProductView.post`: the HTTP status and the session
cart after the request.  `save()` is the only way the session is written;
paths that never reach it leave the stored cart untouched. -/
structure CartAddResult where
  httpStatus : Nat
  session : RawCart
  deriving Repr, DecidableEq

/-- `str(Decimal)` round-trips, so the session written by `Cart.save()`
holds fully parseable entries. -/
def storeCart (cart : CartState) : RawCart :=
  cart.map fun e => (e.1, ⟨some e.2.quantity, some e.2.price⟩)

/-- `CartAddProductSerializer.is_valid()` (cart/serializers.py):
`quantity` is an `IntegerField(min_value=1)`, and `validate_quantity`
rejects an unavailable product and a quantity above `stock_quantity`. -/
def cartAddSerializerValid (product : Product) (quantity : Int) : Bool :=
  1 ≤ quantity ∧ product.is_available ∧ quantity ≤ (product.stock_quantity : Int)

/-- `CartAddProductView.post` (cart/views.py).  Steps, in source order:
build `Cart(request)` (validating the session copy in memory only — nothing
is written back unless `save()` runs); 404 when the product does not exist;
400 when the serializer rejects; compute `new_quantity` from the current
line quantity and the `override` flag; 400 when `new_quantity` exceeds
`stock_quantity`; otherwise `cart.add(...)` and 200.  A `ValueError` raised
by `cart.add` would propagate (500) with the session unwritten. -/
def CartAddProductView_post (catalog : List Product) (session : RawCart)
    (productId : Nat) (quantity : Int) (override : Bool) : CartAddResult :=
  let cart := Cart.validate session
  match getProduct catalog productId with
  | none => ⟨404, session⟩
  | some product =>
    if ¬ cartAddSerializerValid product quantity then ⟨400, session⟩
    else
      let current := ((Cart.lookupItem productId cart).map
        fun it => it.quantity).getD 0
      let newQuantity := if override then quantity else current + quantity
      if (product.stock_quantity : Int) < newQuantity then ⟨400, session⟩
      else
        match Cart.add product quantity override cart with
        | .error _ => ⟨500, session⟩
        | .ok cart2 => ⟨200, storeCart cart2⟩

/-! ## Orders (`orders/models.py`, `orders/serializers.py`, `orders/views.py`) -/

/-- One row of `orders.models.Order`, restricted to the fields this
pipeline reads and writes.  `total_price` is a `DecimalField` with
`default=0.00`; `is_paid` defaults to `False`; `status` defaults to
`'pending'`.  The model declares `is_paid` — there is no `paid` field,
property or related name on `Order`. -/
structure OrderRow where
  userId : Nat
  status : String
  is_paid : Bool
  total_price : Rat
  deriving Repr, DecidableEq

/-- One row of `orders.models.OrderItem`: the product reference (carried as
the `item['product']` value produced by `Cart.__iter__`, which is `None`
when the product no longer exists), the quantity and the unit price. -/
structure OrderItemRow where
  product : Option Product
  quantity : Int
  price : Rat
  deriving Repr, DecidableEq

/-- The writable payload `OrderSerializer` accepts on create.  Of the
serializer's fields, `id`, `user`, `user_email`, `total_price`,
`created_at`, `updated_at` and `order_items` are read-only; only `status`
(validated against the model's choices) and `is_paid` remain writable. -/
structure OrderInput where
  status : String
  is_paid : Bool
  deriving Repr, DecidableEq

/-- `OrderSerializer.is_valid()` for the writable payload: `status` must be
one of the model's choices (DRF `ChoiceField` from the model field). -/
def orderInputValid (input : OrderInput) : Bool :=
  input.status ∈ ["pending", "processing", "completed", "cancelled"]

/-- `OrderSerializer.create` via `serializer.save()`: the authenticated
user is auto-assigned and the row is created from the validated data.
`total_price` is read-only in the serializer and never assigned by the
view, so the persisted row keeps the field default `0.00`. -/
def orderSerializerSave (userId : Nat) (input : OrderInput) : OrderRow :=
  ⟨userId, input.status, input.is_paid, 0⟩

/-- Outcome of `OrderCreateAPIView.post`: HTTP status, the Order row
persisted by the request (if any), the OrderItem rows persisted by
`bulk_create` (empty when it raised), and the session cart after the
request. -/
structure OrderCreateResult where
  httpStatus : Nat
  order : Option OrderRow
  items : List OrderItemRow
  session : RawCart
  deriving Repr, DecidableEq

/-- `OrderCreateAPIView.post` (orders/views.py).  Steps, in source order:
`cart = Cart(request)`; `if not cart` falls back to `Cart.__len__`, so a
cart whose quantities sum to zero is rejected as empty (400, nothing
created, session untouched); serializer validation (400 on failure);
`serializer.save()` persists the Order; the list comprehension builds one
in-memory `OrderItem(order, product=item['product'], price, quantity)` per
item yielded by `Cart.__iter__` — but `OrderItem.product` is a
non-nullable `ForeignKey(Product)` (orders/models.py), so when any yielded
item carries `product = None` (its product was deleted from the catalog)
`OrderItem.objects.bulk_create` violates the NOT NULL constraint and
raises `IntegrityError`: the single INSERT persists no OrderItems, the
exception propagates out of the view (500), and — there being no
enclosing transaction — the already-persisted Order row remains while
`cart.clear()` is never reached, leaving the session untouched.
Otherwise `bulk_create` persists the rows, `cart.clear()` resets the
session cart to `{}`, the Celery dispatch is wrapped in try/except and
never affects the outcome, and the view answers 201 with the order id.
No stock check and no transaction block appear anywhere in the method. -/
def OrderCreateAPIView_post (catalog : List Product) (session : RawCart)
    (userId : Nat) (input : OrderInput) : OrderCreateResult :=
  let cart := Cart.validate session
  if Cart.len cart = 0 then ⟨400, none, [], session⟩
  else if ¬ orderInputValid input then ⟨400, none, [], session⟩
  else
    let order := orderSerializerSave userId input
    if (Cart.iter catalog cart).any (fun it => it.product = none) then
      ⟨500, some order, [], session⟩
    else
      let items := (Cart.iter catalog cart).map fun it =>
        ⟨it.product, it.quantity, it.price⟩
      ⟨201, some order, items, []⟩

/-! ## Payments (`payment/views.py`) -/

/-- Modelled from the spec: `payment/models.py` is absent from src/ (only
its caller `payment/views.py` is present).  Fields follow §3's Payment
record — `{id, orderId, externalSessionId, amount, isSuccessful/status,
timestamp}` — restricted to what the views touch: the linked order, the
external checkout-session correlation id (`stripe_checkout_id`), the
`amount`, and a `status` string ("pending" at creation per §3/§4.5, set to
"completed" by the webhook handler). -/
structure PaymentRow where
  orderId : Nat
  stripe_checkout_id : Nat
  amount : Rat
  status : String
  deriving Repr, DecidableEq

/-- The relational store the payment endpoints read and write: Order rows
keyed by order id, plus the Payment rows. -/
structure PayDb where
  orders : List (Nat × OrderRow)
  payments : List PaymentRow
  deriving Repr, DecidableEq

/-- Outcome of a payment endpoint: HTTP status and the store afterwards. -/
structure PayResult where
  httpStatus : Nat
  db : PayDb
  deriving Repr, DecidableEq

/-- `create_checkout_session` (payment/views.py).
`get_object_or_404(Order, id=order_id, user=request.user)` → 404 when no
such order belongs to the caller.  The next statement is
`if order.paid:` — but `orders.models.Order` declares `is_paid` and no
`paid` field, property or relation, so this attribute access raises
`AttributeError`; the raise sits before the view's try/except, so it
propagates out of the view as a server error (500) with nothing written:
no Stripe session is opened and no Payment row is created, for paid and
unpaid orders alike. -/
def create_checkout_session (db : PayDb) (userId : Nat) (orderId : Nat) :
    PayResult :=
  match (db.orders.find? fun e => e.1 = orderId ∧ e.2.userId = userId) with
  | none => ⟨404, db⟩
  | some _ => ⟨500, db⟩

/-- A provider webhook delivery as seen after transport: whether
`stripe.Webhook.construct_event` accepts the signature, the event type,
and the checkout-session id `event['data']['object']['id']`. -/
structure WebhookEvent where
  verified : Bool
  type : String
  sessionId : Nat
  deriving Repr, DecidableEq

/-- `handle_successful_payment` (payment/views.py).  Look up the Payment by
`stripe_checkout_id`; on `Payment.DoesNotExist` the handler passes (store
unchanged).  Otherwise the source runs `order.paid = True; order.save()`:
`paid` is not a declared field of `Order` (the model field is `is_paid`),
so the assignment only creates a transient Python attribute and `save()`
re-persists the row's declared fields unchanged — the stored `is_paid`
stays as it was.  Then `payment.status = 'completed'; payment.save()`
persists the status change, unconditionally (there is no
already-successful guard). -/
def handle_successful_payment (db : PayDb) (sessionId : Nat) : PayDb :=
  match db.payments.find? fun p => p.stripe_checkout_id = sessionId with
  | none => db
  | some _ =>
    { orders := db.orders
      payments := db.payments.map fun p =>
        if p.stripe_checkout_id = sessionId then { p with status := "completed" }
        else p }

/-- `stripe_webhook` (payment/views.py): 400 on an unverifiable payload;
`handle_successful_payment` on a `checkout.session.completed` event;
200 in every verified case. -/
def stripe_webhook (db : PayDb) (event : WebhookEvent) : PayResult :=
  if ¬ event.verified then ⟨400, db⟩
  else if event.type = "checkout.session.completed" then
    ⟨200, handle_successful_payment db event.sessionId⟩
  else ⟨200, db⟩

/-! ## Theorems -/

/-- C7: For every cart, totalPrice() equals the sum over the cart's current
lines of each line's lineTotal (quantity × snapshot unit price as yielded
by the item iteration), computed from the cart's stored snapshot prices and
not from live catalog prices.  The hypothesis is the invariant
`_validate_cart` establishes on every loaded cart (and `add`/`remove`
preserve): quantities and prices are nonnegative.  The catalog is
universally quantified and `get_total_price` never consults it. -/
theorem C7_total_price_eq_iter_sum (catalog : List Product) (cart : CartState)
    (h : Cart.Nonneg cart) :
    Cart.get_total_price cart =
      ((Cart.iter catalog cart).map fun it => it.total_price).sum := by
  induction cart with
  | nil => rfl
  | cons e t ih =>
    have he := h e (List.mem_cons_self e t)
    have ht : Cart.Nonneg t := fun x hx => h x (List.mem_cons_of_mem e hx)
    simp only [Cart.get_total_price, Cart.iter, List.map_cons, List.sum_cons] at *
    rw [← ih ht]
    congr 1
    simp only [Cart.iterItem]
    by_cases hp : (0 : Rat) < e.2.price
    · by_cases hq : (0 : Int) < e.2.quantity
      · simp [hp, hq]
      · have hz : e.2.quantity = 0 := le_antisymm (not_lt.mp hq) he.1
        simp [hq, hz]
    · have hz : e.2.price = 0 := le_antisymm (not_lt.mp hp) he.2
      simp [hp, hz]

/-- Witness for C7 at a concrete one-line cart. -/
theorem C7_witness :
    Cart.Nonneg [(1, (⟨3, 10⟩ : CartItem))] ∧
    Cart.get_total_price [(1, (⟨3, 10⟩ : CartItem))] =
      ((Cart.iter [] [(1, (⟨3, 10⟩ : CartItem))]).map fun it =>
        it.total_price).sum :=
  ⟨by decide, C7_total_price_eq_iter_sum [] [(1, ⟨3, 10⟩)] (by decide)⟩

/-- C8: createOrder invoked on an empty cart always fails with a 400
cart-empty error and creates no Order and no OrderItems.  The code's
emptiness test is `if not cart`, which falls back to `Cart.__len__`, the
sum of the stored quantities; an empty cart sums to 0, so the hypothesis
covers every empty cart (and the session is left untouched). -/
theorem C8_empty_cart_rejected (catalog : List Product) (session : RawCart)
    (userId : Nat) (input : OrderInput)
    (h : Cart.len (Cart.validate session) = 0) :
    OrderCreateAPIView_post catalog session userId input =
      ⟨400, none, [], session⟩ := by
  simp [OrderCreateAPIView_post, h]

/-- Witness for C8 at the literally empty session cart. -/
theorem C8_witness :
    Cart.len (Cart.validate []) = 0 ∧
    OrderCreateAPIView_post [] [] 7 ⟨"pending", false⟩ =
      ⟨400, none, [], []⟩ :=
  ⟨by decide, C8_empty_cart_rejected [] [] 7 ⟨"pending", false⟩ (by decide)⟩

/-- C5: For every product and requested quantity, a cart add whose
resulting line quantity would exceed the product's available stock (or
whose product is unavailable) returns a stock/validation error (400) and
leaves the cart completely unchanged.  "Resulting line quantity" is the
`new_quantity` the view computes: the requested quantity under override,
otherwise the current validated line quantity plus the request.  Both the
serializer rejection and the view's `new_quantity > stock_quantity` check
return 400 before `cart.add`/`save()` can run, so the session cart is
returned exactly as it was. -/
theorem C5_stock_exceeded_rejected (catalog : List Product)
    (session : RawCart) (productId : Nat) (quantity : Int) (override : Bool)
    (product : Product)
    (hfind : getProduct catalog productId = some product)
    (hbad : product.is_available = false ∨
      (product.stock_quantity : Int) <
        (if override then quantity
         else ((Cart.lookupItem productId (Cart.validate session)).map
           (fun it => it.quantity)).getD 0 + quantity)) :
    CartAddProductView_post catalog session productId quantity override =
      ⟨400, session⟩ := by
  unfold CartAddProductView_post
  rw [hfind]
  by_cases hser : cartAddSerializerValid product quantity = true
  · have hser2 := hser
    simp only [cartAddSerializerValid, decide_eq_true_eq] at hser2
    rcases hbad with hun | hlt
    · rw [hser2.2.1] at hun
      exact absurd hun (by simp)
    · simp only [hser, not_true_eq_false, if_false, ite_false]
      simp [hlt]
  · simp [hser]

/-- Witness for C5: product with stock 2, empty cart, non-override add of
quantity 3. -/
theorem C5_witness :
    getProduct [⟨1, 10, 2, true⟩] 1 = some ⟨1, 10, 2, true⟩ ∧
    CartAddProductView_post [⟨1, 10, 2, true⟩] [] 1 3 false = ⟨400, []⟩ :=
  ⟨by decide,
    C5_stock_exceeded_rejected [⟨1, 10, 2, true⟩] [] 1 3 false ⟨1, 10, 2, true⟩
      (by decide) (Or.inr (by decide))⟩

/-- C6 counterexample: the claim says a line whose quantity becomes zero is
removed from the cart and never stored.  But `Cart.add` sets the line
quantity with `max(0, ...)` and stores the result: adding a product with
`quantity=0, update_quantity=True` to an empty cart stores a line with
quantity 0 (and `_validate_cart` would keep that line on the next load,
since it only rejects negatives). -/
theorem C6_counterexample :
    Cart.add ⟨1, 5, 10, true⟩ 0 true [] =
      Except.ok [(1, (⟨0, 5⟩ : CartItem))] ∧
    Cart.lookupItem 1 [(1, (⟨0, 5⟩ : CartItem))] = some ⟨0, 5⟩ :=
  ⟨rfl, rfl⟩

/-- C6 (amended): every cart operation (load/validate, add with or without
override, remove) preserves the invariant that every stored line item has
nonnegative quantity and nonnegative price: `_validate_cart` drops
negative entries but keeps zeroes, `add` clamps quantities at zero with
`max(0, ...)` and stores the clamped value (zero-quantity lines included),
and `remove` only deletes lines. -/
theorem C6_amended_nonneg_invariant (raw : RawCart) (cart : CartState)
    (product : Product) (quantity : Int) (update_quantity : Bool) (pid : Nat)
    (h : Cart.Nonneg cart) :
    Cart.Nonneg (Cart.validate raw) ∧
    Cart.Nonneg (Cart.addState product quantity update_quantity cart) ∧
    Cart.Nonneg (Cart.remove pid cart) := by
  refine ⟨?_, ?_, ?_⟩
  · intro e he
    simp only [Cart.validate, List.mem_filterMap] at he
    obtain ⟨a, _, ha⟩ := he
    rcases hq : a.2.rawQuantity with _ | q
    · simp [hq] at ha
    · rcases hp : a.2.rawPrice with _ | p
      · simp [hq, hp] at ha
      · simp only [hq, hp] at ha
        split at ha
        · exact absurd ha (by simp)
        · rename_i hcond
          push_neg at hcond
          obtain ⟨rfl⟩ := Option.some.inj ha
          exact ⟨hcond.1, hcond.2⟩
  · cases hadd : Cart.add product quantity update_quantity cart with
    | error s => simpa [Cart.addState, hadd] using h
    | ok c2 =>
      simp only [Cart.addState, hadd]
      unfold Cart.add at hadd
      split at hadd
      · exact absurd hadd (by simp)
      · rename_i hpos
        push_neg at hpos
        obtain ⟨rfl⟩ := Except.ok.inj hadd
        intro e he
        simp only [List.mem_map] at he
        obtain ⟨x, hx, hgx⟩ := he
        have hx2 : 0 ≤ x.2.quantity ∧ 0 ≤ x.2.price := by
          by_cases hk : Cart.hasKey product.id cart = true
          · exact h x (by simpa [hk] using hx)
          · simp only [hk, if_false, ite_false] at hx
            rcases List.mem_append.mp hx with hx1 | hx1
            · exact h x hx1
            · simp only [List.mem_singleton] at hx1
              subst hx1
              exact ⟨le_refl 0, le_of_lt hpos⟩
        subst hgx
        by_cases hxe : x.1 = product.id
        · simp only [hxe, if_true, ite_true]
          refine ⟨?_, hx2.2⟩
          split
          · exact le_max_left 0 _
          · exact le_max_left 0 _
        · simp only [hxe, if_false, ite_false]
          exact hx2
  · intro e he
    exact h e (List.mem_of_mem_filter he)

/-- Witness for C6 (amended) at concrete inputs: a raw cart with one valid
entry, a nonnegative in-memory cart, a negative-quantity add, a remove. -/
theorem C6_witness :
    Cart.Nonneg (Cart.validate [(1, ⟨some 2, some 3⟩)]) ∧
    Cart.Nonneg (Cart.addState ⟨3, 5, 10, true⟩ (-7) false
      [(2, (⟨1, 4⟩ : CartItem))]) ∧
    Cart.Nonneg (Cart.remove 2 [(2, (⟨1, 4⟩ : CartItem))]) :=
  C6_amended_nonneg_invariant [(1, ⟨some 2, some 3⟩)]
    [(2, ⟨1, 4⟩)] ⟨3, 5, 10, true⟩ (-7) false 2 (by decide)

/-- Finding by key commutes with mapping a key-preserving function. -/
theorem find?_map_keyfix (l : List (Nat × CartItem)) (pid : Nat)
    (g : Nat × CartItem → Nat × CartItem) (hg : ∀ e, (g e).1 = e.1) :
    (l.map g).find? (fun e => decide (e.1 = pid)) =
      (l.find? (fun e => decide (e.1 = pid))).map g := by
  induction l with
  | nil => rfl
  | cons a t ih =>
    rw [List.map_cons]
    by_cases hp : a.1 = pid
    · rw [List.find?_cons_of_pos, List.find?_cons_of_pos]
      · rfl
      · simp [hp]
      · simp [hg a, hp]
    · rw [List.find?_cons_of_neg, List.find?_cons_of_neg, ih]
      · simp [hp]
      · simp [hg a, hp]

/-- Looking up the updated key after a keyed in-place map. -/
theorem lookupItem_map_key (cart : CartState) (qid : Nat)
    (f : CartItem → CartItem) :
    Cart.lookupItem qid
      (cart.map fun e => if e.1 = qid then (e.1, f e.2) else e) =
      (Cart.lookupItem qid cart).map f := by
  unfold Cart.lookupItem
  rw [find?_map_keyfix cart qid _
    (fun e => by by_cases h : e.1 = qid <;> simp [h])]
  cases hfind : cart.find? (fun e => decide (e.1 = qid)) with
  | none => rfl
  | some e =>
    have hsat := List.find?_some hfind
    simp only [decide_eq_true_eq] at hsat
    simp [hsat]

/-- Looking up any other key after a keyed in-place map. -/
theorem lookupItem_map_other (cart : CartState) (pid qid : Nat)
    (hne : pid ≠ qid) (f : CartItem → CartItem) :
    Cart.lookupItem pid
      (cart.map fun e => if e.1 = qid then (e.1, f e.2) else e) =
      Cart.lookupItem pid cart := by
  unfold Cart.lookupItem
  rw [find?_map_keyfix cart pid _
    (fun e => by by_cases h : e.1 = qid <;> simp [h])]
  cases hfind : cart.find? (fun e => decide (e.1 = pid)) with
  | none => rfl
  | some e =>
    have hsat := List.find?_some hfind
    simp only [decide_eq_true_eq] at hsat
    have hne2 : ¬ e.1 = qid := by rw [hsat]; exact hne
    simp [hne2]

/-- C10: For every cart already containing a line for product p,
add(p, quantity, override) changes only that line's quantity and leaves its
stored unit-price snapshot unchanged, even if the catalog price of p has
changed since the line was first created; the snapshot is taken only when
the line is created.  `product.price` (the current catalog price) is
unconstrained here; the resulting line keeps `it.price`, the stored
snapshot, and every other line is untouched. -/
theorem C10_add_preserves_snapshot (cart : CartState) (product : Product)
    (quantity : Int) (update_quantity : Bool) (it : CartItem)
    (cart2 : CartState)
    (hmem : Cart.lookupItem product.id cart = some it)
    (hok : Cart.add product quantity update_quantity cart = Except.ok cart2) :
    Cart.lookupItem product.id cart2 =
      some ⟨if update_quantity then max 0 quantity
            else max 0 (it.quantity + quantity), it.price⟩ ∧
    ∀ pid, pid ≠ product.id →
      Cart.lookupItem pid cart2 = Cart.lookupItem pid cart := by
  have hkey : Cart.hasKey product.id cart = true := by
    unfold Cart.lookupItem at hmem
    cases hfind : cart.find? (fun e => decide (e.1 = product.id)) with
    | none => rw [hfind] at hmem; exact absurd hmem (by simp)
    | some e =>
      have hsat := List.find?_some hfind
      have hin := List.mem_of_find?_eq_some hfind
      exact List.any_eq_true.mpr ⟨e, hin, hsat⟩
  unfold Cart.add at hok
  split at hok
  · exact absurd hok (by simp)
  · simp only [hkey, if_true, ite_true] at hok
    obtain ⟨rfl⟩ := Except.ok.inj hok
    constructor
    · have h1 := lookupItem_map_key cart product.id
        (fun it2 => (⟨if update_quantity then max 0 quantity
                      else max 0 (it2.quantity + quantity), it2.price⟩ :
          CartItem))
      rw [hmem] at h1
      exact h1
    · intro pid hpid
      exact lookupItem_map_other cart pid product.id hpid
        (fun it2 => (⟨if update_quantity then max 0 quantity
                      else max 0 (it2.quantity + quantity), it2.price⟩ :
          CartItem))

/-- Witness for C10: a stored line (qty 2, snapshot price 7) for a product
whose catalog price is now 99; a non-override add of 4. -/
theorem C10_witness :
    Cart.lookupItem 1 [(1, (⟨6, 7⟩ : CartItem))] =
      some ⟨max 0 (2 + 4), 7⟩ ∧
    Cart.lookupItem 2 [(1, (⟨6, 7⟩ : CartItem))] =
      Cart.lookupItem 2 [(1, (⟨2, 7⟩ : CartItem))] := by
  have h := C10_add_preserves_snapshot [(1, ⟨2, 7⟩)] ⟨1, 99, 5, true⟩ 4 false
    ⟨2, 7⟩ [(1, ⟨6, 7⟩)] (by decide) (by rfl)
  exact ⟨h.1, h.2 2 (by decide)⟩

/-- C9 counterexample: the claim says a line whose product no longer exists
in the catalog is reported with lineTotal = 0.  In `Cart.__iter__` a
missing product only makes `products.get(product_id)` return `None`; the
try block never touches `item['product']`, so the line total is still
computed from the stored snapshot.  With the product gone from the catalog
and a stored line of quantity 2 at price 5, the yielded item carries
`product = None` and `total_price = 10 ≠ 0`. -/
theorem C9_counterexample :
    Cart.iter [] [(1, (⟨2, 5⟩ : CartItem))] =
      [⟨1, none, 2, 5, 10⟩] ∧ (10 : Rat) ≠ 0 := by
  constructor
  · simp [Cart.iter, Cart.iterItem, getProduct]
    norm_num
  · norm_num

/-- C9 (amended): iterating the cart never fails as a whole — each stored
line yields exactly one item, independently of the others; a line whose
stored data is corrupted (nonpositive price or nonpositive quantity) is
reported with lineTotal = 0; a line whose product no longer exists in the
catalog is yielded with product = None but its lineTotal still computed
normally from the stored snapshot. -/
theorem C9_amended_iteration_tolerant (catalog : List Product)
    (l1 l2 : CartState) (e : Nat × CartItem) :
    Cart.iter catalog (l1 ++ e :: l2) =
      Cart.iter catalog l1 ++ Cart.iterItem catalog e :: Cart.iter catalog l2 ∧
    (Cart.iterItem catalog e).product = getProduct catalog e.1 ∧
    (e.2.price ≤ 0 ∨ e.2.quantity ≤ 0 →
      (Cart.iterItem catalog e).total_price = 0) ∧
    (0 < e.2.price → 0 < e.2.quantity →
      (Cart.iterItem catalog e).total_price =
        e.2.price * (e.2.quantity : Rat)) := by
  refine ⟨by simp [Cart.iter], rfl, ?_, ?_⟩
  · intro hz
    have : ¬ ((0 : Rat) < e.2.price ∧ (0 : Int) < e.2.quantity) := by
      rcases hz with hz | hz
      · exact fun hc => absurd hc.1 (not_lt.mpr hz)
      · exact fun hc => absurd hc.2 (not_lt.mpr hz)
    simp [Cart.iterItem, this]
  · intro hp hq
    simp [Cart.iterItem, hp, hq]

/-- Witness for C9 (amended): a corrupted zero-quantity line surrounded by
two healthy lines; the iteration yields all three and zeroes only the
corrupted one. -/
theorem C9_witness :
    Cart.iter [] ([(2, (⟨2, 3⟩ : CartItem))] ++ (1, (⟨0, 5⟩ : CartItem)) ::
        [(3, (⟨1, 4⟩ : CartItem))]) =
      Cart.iter [] [(2, (⟨2, 3⟩ : CartItem))] ++
        Cart.iterItem [] (1, (⟨0, 5⟩ : CartItem)) ::
        Cart.iter [] [(3, (⟨1, 4⟩ : CartItem))] ∧
    (Cart.iterItem [] (1, (⟨0, 5⟩ : CartItem))).total_price = 0 := by
  have h := C9_amended_iteration_tolerant [] [(2, ⟨2, 3⟩)] [(3, ⟨1, 4⟩)]
    (1, ⟨0, 5⟩)
  exact ⟨h.1, h.2.2.1 (Or.inr (by decide))⟩

/-- C1 counterexample: the claim says createOrder re-runs the stock
validator inside the transaction and aborts with a stock-conflict error
when a line exceeds available stock.  With a catalog product of stock 2 and
a cart line of quantity 5, `OrderCreateAPIView.post` nevertheless answers
201, creates the Order and an OrderItem for the oversized line, and clears
the cart — no stock check exists in the method. -/
theorem C1_counterexample :
    OrderCreateAPIView_post [⟨1, 10, 2, true⟩] [(1, ⟨some 5, some 10⟩)] 7
        ⟨"pending", false⟩ =
      ⟨201, some ⟨7, "pending", false, 0⟩, [⟨some ⟨1, 10, 2, true⟩, 5, 10⟩],
        []⟩ ∧
    ((2 : Nat) : Int) < 5 := by
  constructor
  · simp [OrderCreateAPIView_post, Cart.validate, Cart.len, orderInputValid,
      orderSerializerSave, Cart.iter, Cart.iterItem, getProduct]
  · norm_num

/-- C1 (amended): createOrder never aborts with a stock-conflict error —
no stock re-validation exists.  For every request whose validated cart is
non-empty, whose serializer payload is valid, and whose cart lines all
still refer to catalog products (so that `bulk_create`'s non-nullable
foreign key is satisfiable), it answers 201, creates the Order row and one
OrderItem per yielded cart line, and clears the cart — even when line
quantities exceed the products' available stock (the stock fields of the
catalog are never consulted). -/
theorem C1_amended_no_stock_check (catalog : List Product) (session : RawCart)
    (userId : Nat) (input : OrderInput)
    (hlen : Cart.len (Cart.validate session) ≠ 0)
    (hval : orderInputValid input = true)
    (hprod : (Cart.iter catalog (Cart.validate session)).any
      (fun it => it.product = none) = false) :
    OrderCreateAPIView_post catalog session userId input =
      ⟨201, some (orderSerializerSave userId input),
        (Cart.iter catalog (Cart.validate session)).map fun it =>
          ⟨it.product, it.quantity, it.price⟩, []⟩ := by
  simp [OrderCreateAPIView_post, hlen, hval, hprod]

/-- Witness for C1 (amended): the oversized one-line cart from the
counterexample, whose product does exist in the catalog. -/
theorem C1_witness :
    Cart.len (Cart.validate [(1, ⟨some 5, some 10⟩)]) ≠ 0 ∧
    OrderCreateAPIView_post [⟨1, 10, 2, true⟩] [(1, ⟨some 5, some 10⟩)] 7
        ⟨"pending", false⟩ =
      ⟨201, some (orderSerializerSave 7 ⟨"pending", false⟩),
        (Cart.iter [⟨1, 10, 2, true⟩]
          (Cart.validate [(1, ⟨some 5, some 10⟩)])).map fun it =>
            ⟨it.product, it.quantity, it.price⟩, []⟩ :=
  ⟨by decide,
    C1_amended_no_stock_check [⟨1, 10, 2, true⟩] [(1, ⟨some 5, some 10⟩)] 7
      ⟨"pending", false⟩ (by decide) (by decide) (by decide)⟩

/-- C2 (code bug, evaluated at the failing input): for the cart
`{product 1: qty 3 @ 10}` (pre-order cart total 30) and a valid order
request, `OrderCreateAPIView.post` creates the order, copies the line into
one OrderItem (quantity 3, snapshot price 10) and empties the cart — but
the persisted Order's `total_price` is the field default 0, not the cart
total 30: `total_price` is a `ReadOnlyField` in `OrderSerializer`, and the
view never assigns it (the repo's own admin (`orders/admin.py`) computes
`obj.total_price = sum(item.get_total() ...)` on admin saves, and
`create_checkout_session` charges `order.total_price * 100`, so the
persisted sum is clearly the intended behaviour). -/
theorem C2_total_price_not_persisted :
    OrderCreateAPIView_post [⟨1, 10, 5, true⟩] [(1, ⟨some 3, some 10⟩)] 7
        ⟨"pending", false⟩ =
      ⟨201, some ⟨7, "pending", false, 0⟩, [⟨some ⟨1, 10, 5, true⟩, 3, 10⟩],
        []⟩ ∧
    Cart.get_total_price (Cart.validate [(1, ⟨some 3, some 10⟩)]) = 30 ∧
    (0 : Rat) ≠ 30 := by
  refine ⟨?_, ?_, by norm_num⟩
  · simp [OrderCreateAPIView_post, Cart.validate, Cart.len, orderInputValid,
      orderSerializerSave, Cart.iter, Cart.iterItem, getProduct]
  · norm_num [Cart.get_total_price, Cart.validate, List.filterMap_cons]

/-- C3 (code bug, evaluated at the failing input): a verified
`checkout.session.completed` event for session 9, matching a pending
Payment linked to unpaid order 1, delivered twice.  Both deliveries answer
200 and the Payment ends "completed", but after both deliveries the
order's `is_paid` is still false — `handle_successful_payment` assigns
`order.paid = True`, and `paid` is not a field of the Order model (the
field is `is_paid`), so `order.save()` persists no paid transition: the
claimed exactly-one `isPaid` transition never happens at all. -/
theorem C3_order_never_marked_paid :
    (stripe_webhook ⟨[(1, ⟨7, "pending", false, 30⟩)], [⟨1, 9, 30, "pending"⟩]⟩
        ⟨true, "checkout.session.completed", 9⟩).httpStatus = 200 ∧
    (stripe_webhook
      (stripe_webhook ⟨[(1, ⟨7, "pending", false, 30⟩)],
          [⟨1, 9, 30, "pending"⟩]⟩
        ⟨true, "checkout.session.completed", 9⟩).db
      ⟨true, "checkout.session.completed", 9⟩) =
      ⟨200, ⟨[(1, ⟨7, "pending", false, 30⟩)], [⟨1, 9, 30, "completed"⟩]⟩⟩ := by
  constructor
  · simp [stripe_webhook, handle_successful_payment]
  · simp [stripe_webhook, handle_successful_payment]

/-- C4 (code bug, evaluated at the failing input): `create_checkout_session`
runs `if order.paid:` right after the order lookup, but the Order model
declares `is_paid` and nothing named `paid`, so the attribute access raises
`AttributeError` before the try block — every request for an existing
order, paid or unpaid, ends in a server error (500): an unpaid order gets
no Stripe session and no pending Payment row, and an already-paid order
never receives the claimed 400 already-paid rejection. -/
theorem C4_checkout_always_raises :
    create_checkout_session ⟨[(1, ⟨7, "pending", false, 30⟩)], []⟩ 7 1 =
      ⟨500, ⟨[(1, ⟨7, "pending", false, 30⟩)], []⟩⟩ ∧
    create_checkout_session ⟨[(2, ⟨7, "done", true, 30⟩)], []⟩ 7 2 =
      ⟨500, ⟨[(2, ⟨7, "done", true, 30⟩)], []⟩⟩ := by
  constructor
  · simp [create_checkout_session]
  · simp [create_checkout_session]

end Agrilink
